import Mathlib

/-!
Verification of the universal novel crawler against its natural-language
specification.

The Python sources are shallowly embedded as executable Lean definitions:
pure functions become Lean functions on `String`/`Int`/`Nat`/`List`,
stateful code (the per-chapter processor, the lock registry) becomes
explicit state passing over a `ProcState` record, network effects are
abstracted as oracle parameters and recorded action traces, and
Python exceptions become `Except`/`Option` results.

Python-specific primitives that the sources rely on (`str.strip`,
`str.isdigit`, `str.split`, dict insertion order, `string.printable`)
are modelled by `py*` helpers whose behavior follows the documented
Python semantics.
-/

set_option maxRecDepth 4000

namespace Crawler

/-! ## Python string primitives -/

/-- Characters considered whitespace by Python `str.strip` / `str.isspace`
(ASCII whitespace plus the common Unicode space code points). -/
def pyIsSpace (c : Char) : Bool :=
  c.toNat = 32 || (9 ≤ c.toNat && c.toNat ≤ 13) || (28 ≤ c.toNat && c.toNat ≤ 31) ||
  c.toNat = 133 || c.toNat = 160 || c.toNat = 5760 ||
  (8192 ≤ c.toNat && c.toNat ≤ 8202) || c.toNat = 8232 || c.toNat = 8233 ||
  c.toNat = 8239 || c.toNat = 8287 || c.toNat = 12288

/-- `str.strip()` on a list of characters. -/
def pyStripChars (l : List Char) : List Char :=
  ((l.dropWhile pyIsSpace).reverse.dropWhile pyIsSpace).reverse

/-- Python `str.strip()`. -/
def pyStrip (s : String) : String :=
  String.mk (pyStripChars s.data)

/-- Python `str.rstrip()`. -/
def pyRstrip (s : String) : String :=
  String.mk (s.data.reverse.dropWhile pyIsSpace).reverse

/-- Python `str.isdigit()` restricted to ASCII digits (the inputs the
sources feed it are ASCII): non-empty and all digits. -/
def pyIsDigit (s : String) : Bool :=
  !s.data.isEmpty && s.data.all (fun c => c.isDigit)

/-- The numeric value of an ASCII digit string. -/
def digitsToNat (l : List Char) : Nat :=
  l.foldl (fun acc c => acc * 10 + (c.toNat - 48)) 0

/-- Python `int(s)`: optional surrounding whitespace, optional sign,
then one or more ASCII digits; anything else raises `ValueError`
(modelled as `none`). -/
def pyInt? (s : String) : Option Int :=
  match pyStrip s |>.data with
  | [] => none
  | '-' :: rest => if !rest.isEmpty && rest.all Char.isDigit then some (-(digitsToNat rest : Int)) else none
  | '+' :: rest => if !rest.isEmpty && rest.all Char.isDigit then some ((digitsToNat rest : Int)) else none
  | l => if l.all Char.isDigit then some ((digitsToNat l : Int)) else none

/-- Whether `pat` is a leading segment of `l`. -/
def leadSegChars : List Char → List Char → Bool
  | [], _ => true
  | _ :: _, [] => false
  | p :: ps, c :: cs => p = c && leadSegChars ps cs

/-- Whether `pat` occurs as a contiguous run anywhere in `l`
(Python `pat in s`). -/
def containsChars (pat : List Char) : List Char → Bool
  | [] => pat.isEmpty
  | c :: cs => leadSegChars pat (c :: cs) || containsChars pat cs

/-- Python `sub in s` on strings. -/
def containsStr (s sub : String) : Bool :=
  containsChars sub.data s.data

/-- Python `s.endswith(post)`. -/
def endsWithStr (s post : String) : Bool :=
  leadSegChars post.data.reverse s.data.reverse

/-- Python `s.startswith(pre)`. -/
def startsWithStr (s pre : String) : Bool :=
  leadSegChars pre.data s.data

/-- When `sep` is a leading segment of `l`, the remainder after it. -/
def dropSeg : List Char → List Char → Option (List Char)
  | [], l => some l
  | _ :: _, [] => none
  | p :: ps, c :: cs => if p = c then dropSeg ps cs else none

/-- Python `s.split(sep)` on characters, fuelled for structural
termination; with `fuel ≥ l.length` and non-empty `sep` this is exactly
the Python split. -/
def splitOnCharsFuel (sep : List Char) : Nat → List Char → List (List Char)
  | _, [] => [[]]
  | 0, l => [l]
  | fuel + 1, c :: cs =>
    match dropSeg sep (c :: cs) with
    | some rest => [] :: splitOnCharsFuel sep fuel rest
    | none =>
      match splitOnCharsFuel sep fuel cs with
      | [] => [[c]]
      | h :: t => (c :: h) :: t

/-- Python `s.split(sep)` for a non-empty separator (the only form the
sources use). -/
def pySplitOn (s sep : String) : List String :=
  if sep.data.isEmpty then [s]
  else (splitOnCharsFuel sep.data s.data.length s.data).map String.mk

/-- ASCII lowercasing, the effect of Python `str.lower()` on the ASCII
range (non-ASCII characters in the inputs at hand are unaffected). -/
def asciiLower (s : String) : String :=
  String.mk (s.data.map Char.toLower)

/-! ## Data model (`models.py`) -/

/-- `ChapterInfo` — one discoverable chapter link (`models.py`). -/
structure ChapterInfo where
  title : String
  url : String
deriving DecidableEq, Repr

/-! ## Catalog de-duplication (`modules/catalog.py`, `fetch_and_parse_catalog`) -/

/-- Assignment `d[k] = v` into a Python dict modelled as an ordered
association list: dicts preserve the insertion position of an existing
key while updating its value, and append unseen keys at the end. -/
def pyDictUpdate {α : Type} (d : List (String × α)) (k : String) (v : α) : List (String × α) :=
  match d with
  | [] => [(k, v)]
  | (k0, v0) :: rest => if k0 = k then (k0, v) :: rest else (k0, v0) :: pyDictUpdate rest k v

/-- The dict comprehension
`{chapter.url: chapter for chapter in reversed(chapters)}`:
a left fold of dict assignments over the reversed chapter list. -/
def catalogDict (l : List ChapterInfo) : List (String × ChapterInfo) :=
  l.foldl (fun d c => pyDictUpdate d c.url c) []

/-- The same dict built by structural recursion on the original
(un-reversed) list; `catalogDict l.reverse` unfolds to this. -/
def catalogDictR : List ChapterInfo → List (String × ChapterInfo)
  | [] => []
  | c :: t => pyDictUpdate (catalogDictR t) c.url c

/-- The de-duplication step of `fetch_and_parse_catalog` (lines 172-173):
`unique_chapters_map = {chapter.url: chapter for chapter in reversed(chapters)}`
then `unique_chapters = list(reversed(unique_chapters_map.values()))`. -/
def dedupCatalog (chapters : List ChapterInfo) : List ChapterInfo :=
  ((catalogDict chapters.reverse).map Prod.snd).reverse

/-! ## Chapter-range grammar (`modules/utils.py`, `parse_chapter_range`) -/

/-- `modules/utils.py::parse_chapter_range` — the shared 1-based parser.
Python `ValueError`s (both the explicit `raise`s and the ones escaping
from `int()`) are modelled as `Except.error` with the raised message. -/
def parse_chapter_range (range_input : String) (total_chapters : Int) : Except String (Int × Int) :=
  let r := pyStrip range_input
  if r = "" then .ok (1, total_chapters)
  else if pyIsDigit r then
    let val : Int := (digitsToNat r.data : Int)
    if 1 ≤ val ∧ val ≤ total_chapters then .ok (val, val)
    else .error "单个章节号超出范围。"
  else if containsStr r "-" || containsStr r ":" then
    let sep := if containsStr r "-" then "-" else ":"
    match pySplitOn r sep with
    | p0 :: p1 :: _ =>
      match (if p0 ≠ "" then pyInt? p0 else some 1),
            (if p1 ≠ "" then pyInt? p1 else some total_chapters) with
      | some s, some e =>
        let s := max 1 s
        let e := min total_chapters e
        if s > e then .error "开始章节不能大于结束章节。" else .ok (s, e)
      | _, _ => .error "invalid literal for int"
    | _ => .error "unreachable split"
  else .error "无法识别的范围格式。请使用 '1-10', '5:', ':20', 或 '8' 等格式。"

/-- `crawler.py::UniversalNovelCrawler.parse_chapter_range` — the legacy
0-based parser.  A caught `ValueError` makes it return `(0, total)`;
the `len(parts) != 2` path falls off the function and returns Python
`None`, modelled as `none`. -/
def crawler_parse_chapter_range (range_input : String) (total_chapters : Int) : Option (Int × Int) :=
  if pyStrip range_input = "" then some (0, total_chapters)
  else
    let r := pyStrip range_input
    if containsStr r "-" || containsStr r ":" then
      let sep := if containsStr r "-" then "-" else ":"
      match pySplitOn r sep with
      | [p0, p1] =>
        match (if pyStrip p0 ≠ "" then pyInt? (pyStrip p0) else some 1) with
        | none => some (0, total_chapters)
        | some s0 =>
          let s := if pyStrip p0 ≠ "" then max 1 s0 else s0
          match (if pyStrip p1 ≠ "" then pyInt? (pyStrip p1) else some total_chapters) with
          | none => some (0, total_chapters)
          | some e0 =>
            let e := if pyStrip p1 ≠ "" then min e0 total_chapters else e0
            some (s - 1, e)
      | _ => none
    else if endsWithStr r "+" then
      match pyInt? (pyStrip (String.mk (r.data.dropLast))) with
      | none => some (0, total_chapters)
      | some s0 => some (max 1 s0 - 1, total_chapters)
    else
      match pyInt? r with
      | none => some (0, total_chapters)
      | some n => some (max 1 (min n total_chapters) - 1, max 1 (min n total_chapters))

/-! ## Merger (`modules/merger.py`) -/

/-- CJK unified ideographs range `[一-龥]` used by the merger's
regexes. -/
def isCJK (c : Char) : Bool :=
  0x4e00 ≤ c.toNat && c.toNat ≤ 0x9fa5

/-- Splits off the maximal leading ASCII digit run (`\d+`, greedy). -/
def takeDigitRun : List Char → List Char × List Char
  | [] => ([], [])
  | c :: t =>
    if c.isDigit then
      let (d, r) := takeDigitRun t
      (c :: d, r)
    else ([], c :: t)

/-- `re.search(r'第(\d+)章', s)`: the number of the first
`第<digits>章` run found scanning left to right. -/
def findDiZhangNum : List Char → Option Nat
  | [] => none
  | c :: t =>
    if c = '第' then
      match takeDigitRun t with
      | ([], _) => findDiZhangNum t
      | (ds, r) =>
        match r with
        | '章' :: _ => some (digitsToNat ds)
        | _ => findDiZhangNum t
    else findDiZhangNum t

/-- `re.search(r'^第(\d+)章', s)`: same pattern anchored at the start
(as used to classify normal chapters in `merge_chapters_to_txt`). -/
def matchDiZhangNum (l : List Char) : Option Nat :=
  match l with
  | '第' :: t =>
    match takeDigitRun t with
    | ([], _) => none
    | (ds, '章' :: _) => some (digitsToNat ds)
    | (_, _) => none
  | _ => none

/-- After `第[\d一-龥]+` has consumed at least one character:
either the next character closes the match with `章`, or it extends the
greedy class run (regex backtracking explores exactly these splits). -/
def diCJKEnd : List Char → Bool
  | [] => false
  | c :: t => c = '章' || ((c.isDigit || isCJK c) && diCJKEnd t)

/-- Matches `[\d一-龥]+章` at the head of the list. -/
def diCJKSeq : List Char → Bool
  | [] => false
  | c :: t => (c.isDigit || isCJK c) && diCJKEnd t

/-- `re.search(r'第[\d一-龥]+章', s)` (the 番外 guard in
`_normalize_title`). -/
def searchDiCJKZhang : List Char → Bool
  | [] => false
  | c :: t => (c = '第' && diCJKSeq t) || searchDiCJKZhang t

/-- One of `[章节卷]`. -/
def isZJJ (c : Char) : Bool :=
  c = '章' || c = '节' || c = '卷'

/-- Greedy match of `[一-龥\d]*[章节卷]` with backtracking:
prefer consuming a class character and recursing; fall back to closing
with a `[章节卷]` character.  Returns the consumed run (terminator
included) and the remainder. -/
def canonQ : List Char → Option (List Char × List Char)
  | [] => none
  | c :: t =>
    if c.isDigit || isCJK c then
      match canonQ t with
      | some (g, r) => some (c :: g, r)
      | none => if isZJJ c then some ([c], t) else none
    else none

/-- `re.match(r'(第[一-龥\d]+[章节卷])\s*[:：_-]*\s*(.*)', s)`:
returns (group 1, group 2) when the title is already canonical. -/
def matchCanonical (s : String) : Option (String × String) :=
  match s.data with
  | '第' :: c :: rest =>
    if c.isDigit || isCJK c then
      match canonQ rest with
      | some (g, r) =>
        let r1 := r.dropWhile pyIsSpace
        let r2 := r1.dropWhile (fun x => x = ':' || x = '：' || x = '_' || x = '-')
        let r3 := r2.dropWhile pyIsSpace
        some (String.mk ('第' :: c :: g), String.mk r3)
      | none => none
    else none
  | _ => none

/-- `re.match(r'^(\d+)[、．.：:]\s*(.*)', s)` from `_normalize_title`. -/
def matchDigitSep (s : String) : Option (String × String) :=
  match takeDigitRun s.data with
  | ([], _) => none
  | (ds, c :: rest) =>
    if c = '、' || c = '．' || c = '.' || c = '：' || c = ':' then
      some (String.mk ds, String.mk (rest.dropWhile pyIsSpace))
    else none
  | (_, []) => none

/-- The ten single-character Chinese numerals of the `chinese_nums`
dict. -/
def chNumVal (c : Char) : Option Nat :=
  if c = '一' then some 1 else if c = '二' then some 2 else if c = '三' then some 3
  else if c = '四' then some 4 else if c = '五' then some 5 else if c = '六' then some 6
  else if c = '七' then some 7 else if c = '八' then some 8 else if c = '九' then some 9
  else if c = '十' then some 10 else none

/-- Splits off the maximal leading run of `[一二三四五六七八九十]`. -/
def takeChNumRun : List Char → List Char × List Char
  | [] => ([], [])
  | c :: t =>
    if (chNumVal c).isSome then
      let (d, r) := takeChNumRun t
      (c :: d, r)
    else ([], c :: t)

/-- `re.match(r'^([一二三四五六七八九十]+)[、．.：:]\s*(.*)', s)`:
returns (numeral run, group 2). -/
def matchChineseSep (s : String) : Option (List Char × String) :=
  match takeChNumRun s.data with
  | ([], _) => none
  | (ds, c :: rest) =>
    if c = '、' || c = '．' || c = '.' || c = '：' || c = ':' then
      some (ds, String.mk (rest.dropWhile pyIsSpace))
    else none
  | (_, []) => none

/-- `merger.py::_normalize_title`. -/
def normalize_title (raw : String) : String :=
  let t := pyStrip raw
  if containsStr t "番外" && !(searchDiCJKZhang t.data) then "__EXTRA__" ++ t
  else
    match matchCanonical t with
    | some (numPart, namePart) =>
      let name := pyStrip namePart
      if name = "" then numPart else numPart ++ " " ++ name
    | none =>
      match matchDigitSep t with
      | some (num, namePart) => "__REFORMAT__" ++ num ++ "__" ++ pyStrip namePart
      | none =>
        if pyIsDigit t then "__REFORMAT__" ++ t ++ "__"
        else
          match matchChineseSep t with
          | some ([c], namePart) =>
            match chNumVal c with
            | some v => "__REFORMAT__" ++ toString v ++ "__" ++ pyStrip namePart
            | none => "__UNKNOWN__" ++ t
          | _ => "__UNKNOWN__" ++ t

/-- Body-line loop of `_clean_merge_content`: collapse blank runs to a
single blank line (only once output exists), indent non-blank lines by
four spaces. -/
def cleanBody (prevBlank hasOut : Bool) : List String → List String
  | [] => []
  | raw :: rest =>
    let line := pyRstrip raw
    if pyStrip line = "" then
      if !prevBlank && hasOut then "" :: cleanBody true true rest
      else cleanBody prevBlank hasOut rest
    else ("    " ++ pyStrip line) :: cleanBody false true rest

/-- `merger.py::_clean_merge_content`. -/
def clean_merge_content (content : String) : String :=
  match pySplitOn content "\n" with
  | [] => ""
  | l0 :: rest =>
    if startsWithStr l0 "# " then
      let title := normalize_title (pyStrip (String.mk (l0.data.drop 2)))
      String.intercalate "\n" (title :: "" :: cleanBody false true rest)
    else
      String.intercalate "\n" (cleanBody false false (l0 :: rest))

/-- `merger.py::_extract_chapter_number`; `h` models Python's `hash`
composed with the nonnegative residue taken by `% 1000`. -/
def extract_chapter_number (h : String → Nat) (filename : String) : Nat :=
  match findDiZhangNum filename.data with
  | some n => n
  | none =>
    match (match takeDigitRun filename.data with
           | ([], _) => none
           | (ds, c :: _) => if c = '、' || c = '．' || c = '.' then some (digitsToNat ds) else none
           | (_, []) => none) with
    | some n => n
    | none =>
      match takeDigitRun filename.data with
      | ([], _) =>
        if containsStr filename "番外" then 90000 + h filename % 1000 else 99999
      | (ds, _) => digitsToNat ds

/-- Insertion into an already-sorted accumulator, placing the new
element after every element of smaller-or-equal key (this reproduces the
stability of Python `sorted`). -/
def insertSortedByKey {α : Type} (key : α → Nat) (acc : List α) (a : α) : List α :=
  match acc with
  | [] => [a]
  | b :: t => if key b ≤ key a then b :: insertSortedByKey key t a else a :: b :: t

/-- Python `sorted(l, key=key)` as a stable insertion sort. -/
def sortByKey {α : Type} (key : α → Nat) (l : List α) : List α :=
  l.foldl (insertSortedByKey key) []

/-- First line of a chapter content string. -/
def headLineOf (content : String) : String :=
  match pySplitOn content "\n" with
  | [] => ""
  | l0 :: _ => l0

/-- One step of the normal/special partition of
`merge_chapters_to_txt` (accumulator: max normal number, normal
contents, special contents). -/
def classifyStep (acc : Nat × List String × List String) (content : String) : Nat × List String × List String :=
  let (maxN, normals, specials) := acc
  let l0 := headLineOf content
  if pyStrip l0 = "" then (maxN, normals ++ [content], specials)
  else
    match matchDiZhangNum l0.data with
    | some n => (max maxN n, normals ++ [content], specials)
    | none => (maxN, normals, specials ++ [content])

/-- The normal/special partition pass of `merge_chapters_to_txt`. -/
def classifyContents (contents : List String) : Nat × List String × List String :=
  contents.foldl classifyStep (0, [], [])

/-- Replace the first line of a content string. -/
def replaceHead (content : String) (newHead : String) : String :=
  match pySplitOn content "\n" with
  | [] => newHead
  | _ :: rest => String.intercalate "\n" (newHead :: rest)

/-- Drop the first `n` characters (Python `s[n:]`). -/
def dropChars (s : String) (n : Nat) : String :=
  String.mk (s.data.drop n)

/-- One iteration of the special-chapter renumbering loop of
`merge_chapters_to_txt`; returns the rewritten content and the next
chapter counter. -/
def renumberStep (n : Nat) (content : String) : String × Nat :=
  let l0 := headLineOf content
  if pyStrip l0 = "" then (content, n)
  else if startsWithStr l0 "__EXTRA__" then
    (replaceHead content ("第" ++ toString n ++ "章 " ++ dropChars l0 9), n + 1)
  else if startsWithStr l0 "__REFORMAT__" then
    let parts := pySplitOn (dropChars l0 12) "__"
    let newTitle :=
      match parts with
      | _ :: p1 :: _ => if p1 ≠ "" then "第" ++ toString n ++ "章 " ++ p1 else "第" ++ toString n ++ "章"
      | _ => "第" ++ toString n ++ "章"
    (replaceHead content newTitle, n + 1)
  else if startsWithStr l0 "__UNKNOWN__" then
    (replaceHead content ("第" ++ toString n ++ "章 " ++ dropChars l0 11), n + 1)
  else (content, n)

/-- The special-chapter renumbering loop (counter threaded through). -/
def renumberSpecials (n : Nat) : List String → List String
  | [] => []
  | c :: rest =>
    let (c2, n2) := renumberStep n c
    c2 :: renumberSpecials n2 rest

/-- The content-assembly pipeline of `merger.py::merge_chapters_to_txt`:
sort the directory listing (given as filename/file-text pairs) by
`_extract_chapter_number`, clean every chapter, partition into normal
and special chapters, renumber the specials from `max_normal + 1`, and
emit normals followed by the renumbered specials. -/
def merge_processed_contents (h : String → Nat) (files : List (String × String)) : List String :=
  let sortedFiles := sortByKey (fun f => extract_chapter_number h f.1) files
  let contents := sortedFiles.map (fun f => clean_merge_content f.2)
  let (maxN, normals, specials) := classifyContents contents
  normals ++ renumberSpecials (maxN + 1) specials

/-- The text written to the merged `.txt` file: every non-blank
processed content followed by a blank separator line. -/
def merged_txt (h : String → Nat) (files : List (String × String)) : String :=
  ((merge_processed_contents h files).filter (fun c => pyStrip c ≠ "")).foldl
    (fun acc c => acc ++ c ++ "\n\n") ""

/-! ## Filename sanitization (`modules/utils.py::sanitize_filename`) -/

/-- The characters stripped by `re.sub(r'[\\/*?:"<>|]', "", text)`. -/
def isIllegalFileChar (c : Char) : Bool :=
  c = '\\' || c = '/' || c = '*' || c = '?' || c = ':' || c = '"' || c = '<' || c = '>' || c = '|'

/-- `modules/utils.py::sanitize_filename`. -/
def sanitize_filename (text : String) : String :=
  pyStrip (String.mk (text.data.filter (fun c => !isIllegalFileChar c)))

/-! ## Processor (`modules/processor.py`) -/

/-- Python `process_and_save_chapter` returns `"success"`, `"skipped"`
or `None`. -/
inductive ProcResult where
  | success
  | skipped
  | failure
deriving DecidableEq, Repr

/-- The persistent state the processor manipulates: the chapter files on
disk, the `.lock` sentinel files on disk, and the process-wide
`_active_locks` registry. -/
@[ext]
structure ProcState where
  files : List (String × String)
  locks : List String
  registry : List String
deriving DecidableEq, Repr

/-- Reading a file: `os.path.exists` + contents. -/
def lookupFile (fs : List (String × String)) (p : String) : Option String :=
  (fs.find? (fun e => e.1 == p)).map (fun e => e.2)

/-- Set insertion (`set.add`) on a duplicate-free list. -/
def setAdd (s : List String) (x : String) : List String :=
  if x ∈ s then s else s ++ [x]

/-- Set removal (`set.discard`). -/
def setDiscard (s : List String) (x : String) : List String :=
  s.filter (fun y => y ≠ x)

/-- Destination path `<output_dir>/<sanitize(title)>.md` computed at the
top of `process_and_save_chapter`. -/
def chapterPath (output_dir title : String) : String :=
  output_dir ++ "/" ++ sanitize_filename title ++ ".md"

/-- Sidecar lock path `<filepath>.lock`. -/
def lockPath (output_dir title : String) : String :=
  chapterPath output_dir title ++ ".lock"

/-- `_register_lock` followed by `FileLock.acquire` (which creates the
sentinel file): the state right after the lock is taken, before the
existence check runs. -/
def procAfterRegister (ch : ChapterInfo) (output_dir : String) (st : ProcState) : ProcState :=
  let lock := lockPath output_dir ch.title
  { st with registry := setAdd st.registry lock, locks := setAdd st.locks lock }

/-- `_unregister_lock`: discard from the registry and best-effort delete
of the sentinel file, run in the `finally` block on every outcome. -/
def procUnregister (ch : ChapterInfo) (output_dir : String) (st : ProcState) : ProcState :=
  let lock := lockPath output_dir ch.title
  { st with registry := setDiscard st.registry lock, locks := setDiscard st.locks lock }

/-- `modules/processor.py::process_and_save_chapter`.

Network effects are abstracted: `fetch` stands for
`fetch_full_chapter_content` (returning `""` on failure, as the Python
function does) and `clean` for `clean_content`.  The returned triple is
(result, list of chapter URLs fetched during the call, final state). -/
def process_and_save_chapter (fetch : String → String) (clean : String → String → String)
    (ch : ChapterInfo) (output_dir : String) (st : ProcState) :
    ProcResult × List String × ProcState :=
  let filepath := chapterPath output_dir ch.title
  let st2 := procAfterRegister ch output_dir st
  match lookupFile st2.files filepath with
  | some _ => (ProcResult.skipped, ([] : List String), procUnregister ch output_dir st2)
  | none =>
    let html := fetch ch.url
    if html = "" then (ProcResult.failure, [ch.url], procUnregister ch output_dir st2)
    else
      let cleaned := clean html ch.url
      if cleaned = "" then (ProcResult.failure, [ch.url], procUnregister ch output_dir st2)
      else
        (ProcResult.success, [ch.url],
         procUnregister ch output_dir
           { st2 with files := pyDictUpdate st2.files filepath ("# " ++ ch.title ++ "\n\n" ++ cleaned) })

/-- Result projection of `process_and_save_chapter`. -/
def procResult (fetch : String → String) (clean : String → String → String)
    (ch : ChapterInfo) (output_dir : String) (st : ProcState) : ProcResult :=
  (process_and_save_chapter fetch clean ch output_dir st).1

/-- URLs fetched during a `process_and_save_chapter` call. -/
def procFetched (fetch : String → String) (clean : String → String → String)
    (ch : ChapterInfo) (output_dir : String) (st : ProcState) : List String :=
  (process_and_save_chapter fetch clean ch output_dir st).2.1

/-- Final state of a `process_and_save_chapter` call. -/
def procState (fetch : String → String) (clean : String → String → String)
    (ch : ChapterInfo) (output_dir : String) (st : ProcState) : ProcState :=
  (process_and_save_chapter fetch clean ch output_dir st).2.2

/-- `modules/processor.py::cleanup_lock_files`, the sweep registered via
`atexit` and the `SIGINT`/`SIGTERM` handlers: delete every sentinel file
still tracked by the registry, then clear the registry. -/
def cleanup_lock_files (st : ProcState) : ProcState :=
  { st with locks := st.locks.filter (fun p => p ∉ st.registry), registry := [] }

/-! ## Security checker (`modules/security_checker.py`) -/

/-- `urllib.parse.urlparse(url).netloc` for the scheme-qualified URLs
handled here: the text between the first `://` and the next `/`, `?` or
`#`; URLs without `://` have an empty netloc. -/
def netlocOf (url : String) : String :=
  match pySplitOn url "://" with
  | _ :: rest1 :: _ => String.mk (rest1.data.takeWhile (fun c => c ≠ '/' && c ≠ '?' && c ≠ '#'))
  | _ => ""

/-- `urlparse(url).scheme` for the same class of URLs. -/
def urlSchemeOf (url : String) : String :=
  match pySplitOn url "://" with
  | s :: _ :: _ => asciiLower s
  | _ => ""

/-- `SENSITIVE_DOMAINS` — sensitive domain-suffix blacklist. -/
def SENSITIVE_DOMAINS : List String :=
  [".gov.cn", ".gov", ".government.cn",
   ".mil.cn", ".mil", ".army.cn", ".navy.cn", ".airforce.cn",
   ".police.cn", ".gaj.", ".mps.gov.cn",
   ".court.gov.cn", ".procuratorate.gov.cn", ".justice.gov.cn",
   ".mss.gov.cn", ".state-security.cn",
   ".classified.", ".secret.", ".confidential."]

/-- `SENSITIVE_KEYWORDS` — sensitive keyword substrings. -/
def SENSITIVE_KEYWORDS : List String :=
  ["government", "政府", "人民政府", "市政府", "省政府", "县政府",
   "gongan", "公安", "police", "警察", "派出所", "治安",
   "court", "法院", "检察院", "司法",
   "military", "军事", "部队", "军区", "战区", "军委",
   "bank", "银行", "securities", "证券", "insurance", "保险",
   "finance", "金融", "monetary", "货币", "central-bank", "央行",
   "hospital", "医院", "medical", "医疗", "health", "卫生",
   "patient", "病人", "病历",
   "education", "教育", "school", "学校", "university", "大学",
   "student", "学生", "学籍",
   "telecom", "电信", "mobile", "移动", "unicom", "联通",
   "communication", "通信"]

/-- `BLOCKED_DOMAINS` — explicit blocked hosts. -/
def BLOCKED_DOMAINS : List String :=
  ["www.gov.cn", "www.12306.cn", "www.tax.gov.cn",
   "www.pboc.gov.cn", "www.csrc.gov.cn", "www.cbirc.gov.cn",
   "www.mod.gov.cn", "www.81.cn",
   "www.miit.gov.cn", "www.mps.gov.cn"]

/-- Modelled external dependency `tldextract`: a small public-suffix
table sufficient for the hosts considered here.  `tldextract` returns
suffixes WITHOUT a leading dot (e.g. `extract("http://abc.edu").suffix
== "edu"`), which is the load-bearing fact for the checker's fourth
rule. -/
def tldKnownTwoLabel : List String :=
  ["gov.cn", "com.cn", "org.cn", "net.cn", "edu.cn", "mil.cn", "ac.cn"]

/-- Single-label public suffixes of the model. -/
def tldKnownOneLabel : List String :=
  ["gov", "mil", "edu", "com", "org", "net", "cn", "io", "info"]

/-- `tldextract.extract(url).suffix` (no leading dot). -/
def tldextract_suffix (url : String) : String :=
  match (pySplitOn (netlocOf url) ".").reverse with
  | l1 :: l2 :: _ =>
    if (l2 ++ "." ++ l1) ∈ tldKnownTwoLabel then l2 ++ "." ++ l1
    else if l1 ∈ tldKnownOneLabel then l1
    else ""
  | [l1] => if l1 ∈ tldKnownOneLabel then l1 else ""
  | [] => ""

/-- `tldextract.extract(url).domain`: the registrable label immediately
before the suffix. -/
def tldextract_domain (url : String) : String :=
  let host := netlocOf url
  let labels := pySplitOn host "."
  let suffixLabels := (pySplitOn (tldextract_suffix url) ".").length
  let keep := labels.length - (if tldextract_suffix url = "" then 0 else suffixLabels)
  match (labels.take keep).reverse with
  | d :: _ => d
  | [] => ""

/-- `SecurityChecker.is_sensitive_site`: (is sensitive, reason). -/
def is_sensitive_site (url : String) : Bool × String :=
  if url = "" then (false, "")
  else
    let domain := asciiLower (netlocOf url)
    let full_url := asciiLower url
    match SENSITIVE_DOMAINS.find? (fun suf => endsWithStr domain suf) with
    | some suf => (true, "检测到敏感域名后缀: " ++ suf)
    | none =>
      if domain ∈ BLOCKED_DOMAINS then (true, "域名在黑名单中: " ++ domain)
      else
        match SENSITIVE_KEYWORDS.find? (fun kw => containsStr domain kw || containsStr full_url kw) with
        | some kw => (true, "检测到敏感关键词: " ++ kw)
        | none =>
          if (tldextract_suffix url ∈ [".gov", ".mil", ".edu"]) ∧
             ¬ (tldextract_domain url ∈ ["github", "gitlab"]) then
            (true, "检测到敏感顶级域名: ." ++ tldextract_suffix url)
          else (false, "")

/-- `SecurityChecker.is_likely_novel_site`: each `re.match(p, domain)`
with a pattern of shape `.*kw.*` is a substring test, and the
`localhost.*` / `127\.0\.0\.1.*` patterns are anchored tests. -/
def is_likely_novel_site (url : String) : Bool :=
  if url = "" then false
  else
    let domain := asciiLower (netlocOf url)
    containsStr domain "xiaoshuo" || containsStr domain "novel" || containsStr domain "book" ||
    containsStr domain "read" || containsStr domain "story" || containsStr domain "fiction" ||
    containsStr domain "literature" || containsStr domain "biquge" || containsStr domain "qidian" ||
    containsStr domain "zongheng" || containsStr domain "17k" || containsStr domain "jjwxc" ||
    startsWithStr domain "localhost" || startsWithStr domain "127.0.0.1"

/-- `SecurityChecker.check_url_safety`: (is safe, message). -/
def check_url_safety (url : String) : Bool × String :=
  if url = "" then (false, "URL为空")
  else
    let (sensitive, reason) := is_sensitive_site url
    if sensitive then (false, "🚫 拒绝访问敏感网站: " ++ reason)
    else if is_likely_novel_site url then (true, "✅ 检测到疑似小说网站，允许访问")
    else (true, "⚠️ 未知网站类型，请确保仅用于合法的小说内容爬取")

/-- `SecurityChecker.validate_crawl_request`. -/
def validate_crawl_request (url : String) (force_check : Bool) : Bool :=
  if !force_check then true
  else (check_url_safety url).1

/-! ## URL cleaning (`utils.py::clean_and_validate_url`) -/

/-- Membership in Python `string.printable`: the ASCII range 32–126
plus the whitespace control characters 9–13. -/
def inStringPrintable (c : Char) : Bool :=
  (32 ≤ c.toNat && c.toNat ≤ 126) || (9 ≤ c.toNat && c.toNat ≤ 13)

/-- The CJK bracket characters removed by the `abnormal_chars` loop. -/
def isAbnormalChar (c : Char) : Bool :=
  c = '】' || c = '【' || c = '」' || c = '「' || c = '》' || c = '《' ||
  c = '）' || c = '（' || c = '｝' || c = '｛' || c = '］' || c = '［'

/-- The cleaning passes of `clean_and_validate_url` before validation:
strip, remove the CJK bracket characters, drop everything outside
`string.printable`, strip again. -/
def cleanedUrl (url : String) : String :=
  pyStrip (String.mk
    (((pyStripChars url.data).filter (fun c => !isAbnormalChar c)).filter inStringPrintable))

/-- The `urlparse`-based validation tail of `clean_and_validate_url`:
require a non-empty netloc and an `http`/`https` scheme. -/
def validateUrl (u : String) : Except String String :=
  if netlocOf u = "" then .error ("URL缺少域名部分: " ++ u)
  else if urlSchemeOf u = "http" || urlSchemeOf u = "https" then .ok u
  else .error ("URL协议必须是http或https: " ++ u)

/-- `utils.py::clean_and_validate_url`; `ValueError` is modelled as
`Except.error`. -/
def clean_and_validate_url (url : String) : Except String String :=
  if url = "" then .error "URL不能为空"
  else if startsWithStr (cleanedUrl url) "http://" || startsWithStr (cleanedUrl url) "https://" then
    validateUrl (cleanedUrl url)
  else if startsWithStr (cleanedUrl url) "www." || containsStr (cleanedUrl url) "." then
    validateUrl ("https://" ++ cleanedUrl url)
  else .error ("无效的URL格式: " ++ cleanedUrl url)

/-! ## Crawl workflow network trace
(`crawler.py::get_chapter_list`, `check_robots_txt`;
`cli.py::run_single_crawl`) -/

/-- An externally visible step of the crawl workflow: either a
`SecurityChecker` gate consultation or an outbound HTTP request. -/
inductive CrawlAction where
  | secCheck (url : String)
  | httpGet (url : String)
deriving DecidableEq, Repr

/-- `urljoin(f"{scheme}://{netloc}", '/robots.txt')` as computed in
`check_robots_txt`. -/
def robots_txt_url (url : String) : String :=
  urlSchemeOf url ++ "://" ++ netlocOf url ++ "/robots.txt"

/-- Requests issued by `crawler.py::check_robots_txt`: nothing when
`skip_robots` is set; otherwise the direct block-detection fetch of
`robots.txt` followed by `RobotFileParser.read()` fetching it again.
The verdict (allow/deny, including the interactive override and the
default-allow on errors) is the oracle `robotsVerdict`. -/
def check_robots_txt_actions (skipRobots : Bool) (url : String) : List CrawlAction :=
  if skipRobots then []
  else [CrawlAction.httpGet (robots_txt_url url), CrawlAction.httpGet (robots_txt_url url)]

/-- Action trace of `crawler.py::get_chapter_list` up to and including
its first catalog request: the robots.txt policy runs first, and when it
allows (or is skipped) the catalog page is fetched with
`session.get(catalog_url)`.  No `SecurityChecker` call occurs anywhere
in `get_chapter_list`, nor in `cli.py::run_single_crawl` (which imports
`get_security_checker` but never invokes it). -/
def get_chapter_list_actions (skipRobots robotsVerdict : Bool) (url : String) : List CrawlAction :=
  check_robots_txt_actions skipRobots url ++
    (if skipRobots || robotsVerdict then [CrawlAction.httpGet url] else [])

/-- Whether a trace consults the security gate. -/
def traceConsultsGate (trace : List CrawlAction) : Bool :=
  trace.any (fun a => match a with | CrawlAction.secCheck _ => true | _ => false)

/-- Whether a trace issues at least one HTTP request. -/
def traceFetches (trace : List CrawlAction) : Bool :=
  trace.any (fun a => match a with | CrawlAction.httpGet _ => true | _ => false)

/-! ## Thread-count resolution (`cli.py::run_single_crawl` lines
257-265, `create_cli_parser` lines 65-66) -/

/-- Default of the `-t` and `--threads` flag. -/
def THREADS_DEFAULT : Int := 3

/-- The worker count `run_single_crawl` hands to `crawl_novel` (and
thus to `ThreadPoolExecutor`): `max_workers = args.threads`, and only
in interactive mode (no `-u` flag) a digit answer to the prompt
overrides it, clamped with `max(1, min(10, int(input)))`. -/
def resolve_max_workers (args_url : Option String) (args_threads : Int) (workers_input : String) : Int :=
  let mw := args_threads
  if args_url.isSome then mw
  else
    let w := pyStrip workers_input
    if pyIsDigit w then max 1 (min 10 (digitsToNat w.data : Int)) else mw

/-! ## Concrete sample inputs used by the claim theorems -/

/-- A catalog accumulation in which the URL `u` is discovered twice,
first under title `A`, later under title `B`. -/
def c2_sample : List ChapterInfo :=
  [⟨"A", "u"⟩, ⟨"X", "v"⟩, ⟨"B", "u"⟩]

/-- The four on-disk chapters of the merger example (filename, file
text), written as the Processor persists them. -/
def mergerExampleFiles : List (String × String) :=
  [("第1章 开篇.md", "# 第1章 开篇\n\n正文甲"),
   ("第3章 风起.md", "# 第3章 风起\n\n正文乙"),
   ("番外 外传一.md", "# 番外 外传一\n\n正文丙"),
   ("5、番外篇二.md", "# 5、番外篇二\n\n正文丁")]

/-- A fetch oracle that always returns non-empty chapter markup. -/
def fetchConst : String → String := fun _ => "<div>html</div>"

/-- A cleaning oracle that always returns non-empty text. -/
def cleanConst : String → String → String := fun _ _ => "正文"

/-! ## Helper lemmas -/

theorem mem_pyDictUpdate {α : Type} {d : List (String × α)} {k k1 : String} {v v1 : α}
    (h : (k1, v1) ∈ pyDictUpdate d k v) : (k1 = k ∧ v1 = v) ∨ (k1, v1) ∈ d := by
  induction d with
  | nil =>
    simp only [pyDictUpdate, List.mem_singleton] at h
    rw [Prod.mk.injEq] at h
    exact Or.inl h
  | cons hd tl ih =>
    obtain ⟨k0, v0⟩ := hd
    by_cases hk : k0 = k
    · subst hk
      simp only [pyDictUpdate, if_pos rfl] at h
      rcases List.mem_cons.mp h with h | h
      · rw [Prod.mk.injEq] at h
        exact Or.inl ⟨h.1, h.2⟩
      · exact Or.inr (List.mem_cons_of_mem _ h)
    · simp only [pyDictUpdate, if_neg hk] at h
      rcases List.mem_cons.mp h with h | h
      · exact Or.inr (List.mem_cons.mpr (Or.inl h))
      · rcases ih h with h | h
        · exact Or.inl h
        · exact Or.inr (List.mem_cons_of_mem _ h)

theorem keys_pyDictUpdate {α : Type} (d : List (String × α)) (k : String) (v : α) :
    (pyDictUpdate d k v).map Prod.fst =
      if k ∈ d.map Prod.fst then d.map Prod.fst else d.map Prod.fst ++ [k] := by
  induction d with
  | nil => simp [pyDictUpdate]
  | cons hd tl ih =>
    obtain ⟨k0, v0⟩ := hd
    by_cases hk : k0 = k
    · subst hk
      simp [pyDictUpdate]
    · simp only [pyDictUpdate, if_neg hk, List.map_cons, ih]
      by_cases hm : k ∈ tl.map Prod.fst
      · rw [if_pos hm, if_pos (List.mem_cons.mpr (Or.inr hm))]
      · have hn : k ∉ k0 :: tl.map Prod.fst := by
          intro hc
          rcases List.mem_cons.mp hc with hc | hc
          · exact hk hc.symm
          · exact hm hc
        rw [if_neg hm, if_neg hn]
        rfl

theorem val_pyDictUpdate_self {α : Type} {d : List (String × α)} {k : String} {v v1 : α}
    (hnd : (d.map Prod.fst).Nodup) (h : (k, v1) ∈ pyDictUpdate d k v) : v1 = v := by
  induction d with
  | nil =>
    simp only [pyDictUpdate, List.mem_singleton] at h
    rw [Prod.mk.injEq] at h
    exact h.2
  | cons hd tl ih =>
    obtain ⟨k0, v0⟩ := hd
    rw [List.map_cons, List.nodup_cons] at hnd
    by_cases hk : k0 = k
    · subst hk
      simp only [pyDictUpdate, if_pos rfl] at h
      rcases List.mem_cons.mp h with h | h
      · rw [Prod.mk.injEq] at h
        exact h.2
      · exact absurd (List.mem_map_of_mem Prod.fst h) hnd.1
    · simp only [pyDictUpdate, if_neg hk] at h
      rcases List.mem_cons.mp h with h | h
      · rw [Prod.mk.injEq] at h
        exact absurd h.1.symm hk
      · exact ih hnd.2 h

theorem catalogDict_reverse_eq (l : List ChapterInfo) :
    catalogDict l.reverse = catalogDictR l := by
  induction l with
  | nil => rfl
  | cons c t ih =>
    have step : catalogDict (c :: t).reverse = pyDictUpdate (catalogDict t.reverse) c.url c := by
      unfold catalogDict
      rw [List.reverse_cons, List.foldl_append]
      rfl
    rw [step, ih]
    rfl

theorem entry_url_catalogDictR {l : List ChapterInfo} {k : String} {v : ChapterInfo}
    (h : (k, v) ∈ catalogDictR l) : v.url = k := by
  induction l with
  | nil => simp [catalogDictR] at h
  | cons c t ih =>
    rcases mem_pyDictUpdate h with ⟨h1, h2⟩ | h
    · rw [h2, h1]
    · exact ih h

theorem keys_catalogDictR (l : List ChapterInfo) :
    (catalogDictR l).map Prod.fst = ((l.map ChapterInfo.url).dedup).reverse := by
  induction l with
  | nil => simp [catalogDictR]
  | cons c t ih =>
    show (pyDictUpdate (catalogDictR t) c.url c).map Prod.fst = _
    rw [keys_pyDictUpdate, ih]
    by_cases hm : c.url ∈ t.map ChapterInfo.url
    · rw [if_pos (by simpa using List.mem_dedup.mpr hm)]
      rw [List.map_cons, List.dedup_cons_of_mem hm]
    · rw [if_neg (by simpa using fun h => hm (List.mem_dedup.mp h))]
      rw [List.map_cons, List.dedup_cons_of_not_mem hm, List.reverse_cons]

theorem nodup_keys_catalogDictR (l : List ChapterInfo) :
    ((catalogDictR l).map Prod.fst).Nodup := by
  rw [keys_catalogDictR]
  exact List.nodup_reverse.mpr (List.nodup_dedup _)

theorem find_catalogDictR {l : List ChapterInfo} {k : String} {v : ChapterInfo}
    (h : (k, v) ∈ catalogDictR l) : l.find? (fun x => x.url == k) = some v := by
  induction l with
  | nil => simp [catalogDictR] at h
  | cons c t ih =>
    by_cases hk : c.url = k
    · subst hk
      have hv : v = c := val_pyDictUpdate_self (nodup_keys_catalogDictR t) h
      subst hv
      simp [List.find?_cons]
    · have h2 : (k, v) ∈ catalogDictR t := by
        rcases mem_pyDictUpdate h with ⟨h1, _⟩ | h2
        · exact absurd h1.symm hk
        · exact h2
      rw [List.find?_cons_of_neg _ (by simpa using hk), ih h2]

theorem dedupCatalog_eq_catalogDictR (l : List ChapterInfo) :
    dedupCatalog l = ((catalogDictR l).map Prod.snd).reverse := by
  unfold dedupCatalog
  rw [catalogDict_reverse_eq]

theorem mem_pyStripChars {l : List Char} {c : Char} (h : c ∈ pyStripChars l) : c ∈ l := by
  unfold pyStripChars at h
  rw [List.mem_reverse] at h
  have h1 := (List.dropWhile_sublist (l := (l.dropWhile pyIsSpace).reverse) pyIsSpace).subset h
  rw [List.mem_reverse] at h1
  exact (List.dropWhile_sublist pyIsSpace).subset h1

theorem mem_setAdd_self (s : List String) (x : String) : x ∈ setAdd s x := by
  unfold setAdd
  by_cases h : x ∈ s
  · simp [h]
  · simp [h]

theorem setDiscard_setAdd (s : List String) (x : String) :
    setDiscard (setAdd s x) x = setDiscard s x := by
  unfold setAdd setDiscard
  by_cases h : x ∈ s
  · simp [h]
  · simp [h, List.filter_append]

theorem not_mem_setDiscard (s : List String) (x : String) : x ∉ setDiscard s x := by
  simp [setDiscard, List.mem_filter]

theorem setDiscard_eq_of_not_mem {s : List String} {x : String} (h : x ∉ s) :
    setDiscard s x = s := by
  unfold setDiscard
  apply List.filter_eq_self.mpr
  intro y hy
  have hne : y ≠ x := by
    intro he
    exact h (he ▸ hy)
  simpa using hne

theorem lookupFile_pyDictUpdate (fs : List (String × String)) (p v : String) :
    lookupFile (pyDictUpdate fs p v) p = some v := by
  induction fs with
  | nil => simp [pyDictUpdate, lookupFile]
  | cons hd tl ih =>
    obtain ⟨k0, v0⟩ := hd
    by_cases hk : k0 = p
    · subst hk
      simp [pyDictUpdate, lookupFile, List.find?_cons]
    · simp only [pyDictUpdate, if_neg hk]
      show (List.find? (fun e => e.1 == p) ((k0, v0) :: pyDictUpdate tl p v)).map (fun e => e.2) = some v
      rw [List.find?_cons_of_neg]
      · exact ih
      · simpa using hk

theorem tldextract_suffix_cases (url : String) :
    tldextract_suffix url = "" ∨ tldextract_suffix url ∈ tldKnownTwoLabel ∨
      tldextract_suffix url ∈ tldKnownOneLabel := by
  unfold tldextract_suffix
  split
  · split_ifs with h1 h2
    · exact Or.inr (Or.inl h1)
    · exact Or.inr (Or.inr h2)
    · exact Or.inl rfl
  · split_ifs with h1
    · exact Or.inr (Or.inr h1)
    · exact Or.inl rfl
  · exact Or.inl rfl

theorem sortByKey_pattern {α : Type} (key : α → Nat) (a b c d : α)
    (hab : key a ≤ key b) (hac : key a ≤ key c) (hbc : key b ≤ key c)
    (had : key a ≤ key d) (hbd : key b ≤ key d) (hcd : ¬ key c ≤ key d) :
    sortByKey key [a, b, c, d] = [a, b, d, c] := by
  show insertSortedByKey key (insertSortedByKey key (insertSortedByKey key
      (insertSortedByKey key [] a) b) c) d = [a, b, d, c]
  have e2 : insertSortedByKey key [a] b = [a, b] := by
    show (if key a ≤ key b then a :: insertSortedByKey key [] b else b :: [a]) = [a, b]
    rw [if_pos hab]; rfl
  have e3 : insertSortedByKey key [a, b] c = [a, b, c] := by
    show (if key a ≤ key c then a :: insertSortedByKey key [b] c else c :: [a, b]) = [a, b, c]
    rw [if_pos hac]
    show a :: (if key b ≤ key c then b :: insertSortedByKey key [] c else c :: [b]) = [a, b, c]
    rw [if_pos hbc]; rfl
  show insertSortedByKey key (insertSortedByKey key (insertSortedByKey key [a] b) c) d = [a, b, d, c]
  rw [e2, e3]
  show (if key a ≤ key d then a :: insertSortedByKey key [b, c] d else d :: [a, b, c]) = [a, b, d, c]
  rw [if_pos had]
  show a :: (if key b ≤ key d then b :: insertSortedByKey key [c] d else d :: [b, c]) = [a, b, d, c]
  rw [if_pos hbd]
  show a :: b :: (if key c ≤ key d then c :: insertSortedByKey key [] d else d :: [c]) = [a, b, d, c]
  rw [if_neg hcd]

/-! ## Processor branch lemmas -/

theorem procAfterRegister_files (ch : ChapterInfo) (dir : String) (st : ProcState) :
    (procAfterRegister ch dir st).files = st.files := rfl

theorem process_eq_of_some {fetch : String → String} {clean : String → String → String}
    {ch : ChapterInfo} {dir : String} {st : ProcState} {b : String}
    (hb : lookupFile st.files (chapterPath dir ch.title) = some b) :
    process_and_save_chapter fetch clean ch dir st =
      (ProcResult.skipped, [], procUnregister ch dir (procAfterRegister ch dir st)) := by
  simp only [process_and_save_chapter, procAfterRegister_files]
  rw [hb]

theorem process_eq_of_fetchEmpty {fetch : String → String} {clean : String → String → String}
    {ch : ChapterInfo} {dir : String} {st : ProcState}
    (hl : lookupFile st.files (chapterPath dir ch.title) = none)
    (hf : fetch ch.url = "") :
    process_and_save_chapter fetch clean ch dir st =
      (ProcResult.failure, [ch.url], procUnregister ch dir (procAfterRegister ch dir st)) := by
  simp only [process_and_save_chapter, procAfterRegister_files]
  rw [hl]
  rw [if_pos hf]

theorem process_eq_of_cleanEmpty {fetch : String → String} {clean : String → String → String}
    {ch : ChapterInfo} {dir : String} {st : ProcState}
    (hl : lookupFile st.files (chapterPath dir ch.title) = none)
    (hf : fetch ch.url ≠ "") (hc : clean (fetch ch.url) ch.url = "") :
    process_and_save_chapter fetch clean ch dir st =
      (ProcResult.failure, [ch.url], procUnregister ch dir (procAfterRegister ch dir st)) := by
  simp only [process_and_save_chapter, procAfterRegister_files]
  rw [hl]
  rw [if_neg hf, if_pos hc]

theorem process_eq_of_success {fetch : String → String} {clean : String → String → String}
    {ch : ChapterInfo} {dir : String} {st : ProcState}
    (hl : lookupFile st.files (chapterPath dir ch.title) = none)
    (hf : fetch ch.url ≠ "") (hc : clean (fetch ch.url) ch.url ≠ "") :
    process_and_save_chapter fetch clean ch dir st =
      (ProcResult.success, [ch.url],
       procUnregister ch dir
         { procAfterRegister ch dir st with
           files := pyDictUpdate st.files (chapterPath dir ch.title)
             ("# " ++ ch.title ++ "\n\n" ++ clean (fetch ch.url) ch.url) }) := by
  simp only [process_and_save_chapter, procAfterRegister_files]
  rw [hl]
  rw [if_neg hf, if_neg hc]

theorem procResult_of_some {fetch : String → String} {clean : String → String → String}
    {ch : ChapterInfo} {dir : String} {st : ProcState} {b : String}
    (hb : lookupFile st.files (chapterPath dir ch.title) = some b) :
    procResult fetch clean ch dir st = ProcResult.skipped := by
  unfold procResult
  rw [process_eq_of_some hb]

theorem procFetched_of_some {fetch : String → String} {clean : String → String → String}
    {ch : ChapterInfo} {dir : String} {st : ProcState} {b : String}
    (hb : lookupFile st.files (chapterPath dir ch.title) = some b) :
    procFetched fetch clean ch dir st = [] := by
  unfold procFetched
  rw [process_eq_of_some hb]

theorem procState_files_of_some {fetch : String → String} {clean : String → String → String}
    {ch : ChapterInfo} {dir : String} {st : ProcState} {b : String}
    (hb : lookupFile st.files (chapterPath dir ch.title) = some b) :
    (procState fetch clean ch dir st).files = st.files := by
  unfold procState
  rw [process_eq_of_some hb]
  rfl

theorem procState_files_of_fetchEmpty {fetch : String → String} {clean : String → String → String}
    {ch : ChapterInfo} {dir : String} {st : ProcState}
    (hl : lookupFile st.files (chapterPath dir ch.title) = none)
    (hf : fetch ch.url = "") :
    (procState fetch clean ch dir st).files = st.files := by
  unfold procState
  rw [process_eq_of_fetchEmpty hl hf]
  rfl

theorem procState_files_of_cleanEmpty {fetch : String → String} {clean : String → String → String}
    {ch : ChapterInfo} {dir : String} {st : ProcState}
    (hl : lookupFile st.files (chapterPath dir ch.title) = none)
    (hf : fetch ch.url ≠ "") (hc : clean (fetch ch.url) ch.url = "") :
    (procState fetch clean ch dir st).files = st.files := by
  unfold procState
  rw [process_eq_of_cleanEmpty hl hf hc]
  rfl

theorem procState_files_of_success {fetch : String → String} {clean : String → String → String}
    {ch : ChapterInfo} {dir : String} {st : ProcState}
    (hl : lookupFile st.files (chapterPath dir ch.title) = none)
    (hf : fetch ch.url ≠ "") (hc : clean (fetch ch.url) ch.url ≠ "") :
    (procState fetch clean ch dir st).files =
      pyDictUpdate st.files (chapterPath dir ch.title)
        ("# " ++ ch.title ++ "\n\n" ++ clean (fetch ch.url) ch.url) := by
  unfold procState
  rw [process_eq_of_success hl hf hc]
  rfl

theorem procResult_success_inv {fetch : String → String} {clean : String → String → String}
    {ch : ChapterInfo} {dir : String} {st : ProcState}
    (h : procResult fetch clean ch dir st = ProcResult.success) :
    lookupFile st.files (chapterPath dir ch.title) = none ∧
      fetch ch.url ≠ "" ∧ clean (fetch ch.url) ch.url ≠ "" := by
  cases hl : lookupFile st.files (chapterPath dir ch.title) with
  | some b =>
    rw [procResult_of_some hl] at h
    exact absurd h (by simp)
  | none =>
    by_cases hf : fetch ch.url = ""
    · unfold procResult at h
      rw [process_eq_of_fetchEmpty hl hf] at h
      exact absurd h (by simp)
    · by_cases hc : clean (fetch ch.url) ch.url = ""
      · unfold procResult at h
        rw [process_eq_of_cleanEmpty hl hf hc] at h
        exact absurd h (by simp)
      · exact ⟨rfl, hf, hc⟩

theorem procState_registry_eq (fetch : String → String) (clean : String → String → String)
    (ch : ChapterInfo) (dir : String) (st : ProcState) :
    (procState fetch clean ch dir st).registry = setDiscard st.registry (lockPath dir ch.title) := by
  unfold procState
  cases hl : lookupFile st.files (chapterPath dir ch.title) with
  | some b =>
    rw [process_eq_of_some hl]
    simp [procUnregister, procAfterRegister, setDiscard_setAdd]
  | none =>
    by_cases hf : fetch ch.url = ""
    · rw [process_eq_of_fetchEmpty hl hf]
      simp [procUnregister, procAfterRegister, setDiscard_setAdd]
    · by_cases hc : clean (fetch ch.url) ch.url = ""
      · rw [process_eq_of_cleanEmpty hl hf hc]
        simp [procUnregister, procAfterRegister, setDiscard_setAdd]
      · rw [process_eq_of_success hl hf hc]
        simp [procUnregister, procAfterRegister, setDiscard_setAdd]

theorem procState_locks_eq (fetch : String → String) (clean : String → String → String)
    (ch : ChapterInfo) (dir : String) (st : ProcState) :
    (procState fetch clean ch dir st).locks = setDiscard st.locks (lockPath dir ch.title) := by
  unfold procState
  cases hl : lookupFile st.files (chapterPath dir ch.title) with
  | some b =>
    rw [process_eq_of_some hl]
    simp [procUnregister, procAfterRegister, setDiscard_setAdd]
  | none =>
    by_cases hf : fetch ch.url = ""
    · rw [process_eq_of_fetchEmpty hl hf]
      simp [procUnregister, procAfterRegister, setDiscard_setAdd]
    · by_cases hc : clean (fetch ch.url) ch.url = ""
      · rw [process_eq_of_cleanEmpty hl hf hc]
        simp [procUnregister, procAfterRegister, setDiscard_setAdd]
      · rw [process_eq_of_success hl hf hc]
        simp [procUnregister, procAfterRegister, setDiscard_setAdd]

/-! ## Claim theorems -/

/-- Claim C2 (counterexample): the claim states that after
de-duplication each URL sits at the position of its FIRST discovery and
carries the title of its LAST occurrence, which at the sample catalog
`[A@u, X@v, B@u]` would yield `[B@u, X@v]`; the code in fact returns
`[X@v, A@u]` — URL `u` at the position of its last discovery, carrying
the title of its first occurrence. -/
theorem C2_dedup_counterexample :
    dedupCatalog c2_sample = [⟨"X", "v"⟩, ⟨"A", "u"⟩] ∧
    dedupCatalog c2_sample ≠ [⟨"B", "u"⟩, ⟨"X", "v"⟩] := by
  decide

/-- Claim C2 (amended): for every accumulated chapter list, the
de-duplication step of `fetch_and_parse_catalog` returns a list whose
URLs are the distinct discovered URLs in order of their LAST discovery
(`List.dedup` keeps last occurrences), and each retained entry is the
FIRST `ChapterInfo` discovered for its URL (first-occurrence title wins,
last-occurrence position wins). -/
theorem C2_dedup_amended (l : List ChapterInfo) :
    (dedupCatalog l).map ChapterInfo.url = (l.map ChapterInfo.url).dedup ∧
    ∀ c ∈ dedupCatalog l, l.find? (fun x => x.url == c.url) = some c := by
  constructor
  · rw [dedupCatalog_eq_catalogDictR, List.map_reverse, List.map_map]
    have hmap : (catalogDictR l).map (ChapterInfo.url ∘ Prod.snd) =
        (catalogDictR l).map Prod.fst := by
      apply List.map_congr_left
      intro e he
      obtain ⟨k, v⟩ := e
      exact entry_url_catalogDictR he
    rw [hmap, keys_catalogDictR, List.reverse_reverse]
  · intro c hc
    rw [dedupCatalog_eq_catalogDictR, List.mem_reverse] at hc
    obtain ⟨e, he, hsnd⟩ := List.mem_map.mp hc
    obtain ⟨k, v⟩ := e
    cases hsnd
    have hurl : v.url = k := entry_url_catalogDictR he
    rw [hurl]
    exact find_catalogDictR he

/-- Witness for `C2_dedup_amended` at the sample catalog and the entry
`A@u` it retains. -/
theorem C2_dedup_amended_witness :
    (dedupCatalog c2_sample).map ChapterInfo.url = (c2_sample.map ChapterInfo.url).dedup ∧
    c2_sample.find? (fun x => x.url == (ChapterInfo.mk "A" "u").url) = some ⟨"A", "u"⟩ :=
  ⟨(C2_dedup_amended c2_sample).1,
   (C2_dedup_amended c2_sample).2 ⟨"A", "u"⟩ (by decide)⟩

/-- Claim C1: the claim states that the crawl workflow consults the
Security Checker's gate before any network request and that a refused
target is never fetched.  In the code the gate is dead: for the catalog
URL `http://www.gov.cn/novel` the gate would refuse
(`validate_crawl_request` is `false`), yet under every robots
configuration the action trace of `get_chapter_list` contains no
`secCheck` action and does issue HTTP requests to the refused target
(the robots.txt probe, and — whenever robots allows or is skipped — the
catalog page itself). -/
theorem C1_security_gate_dead :
    validate_crawl_request "http://www.gov.cn/novel" true = false ∧
    (check_url_safety "http://www.gov.cn/novel").1 = false ∧
    ∀ skipRobots robotsVerdict : Bool,
      traceConsultsGate
          (get_chapter_list_actions skipRobots robotsVerdict "http://www.gov.cn/novel") = false ∧
      traceFetches
          (get_chapter_list_actions skipRobots robotsVerdict "http://www.gov.cn/novel") = true := by
  decide

/-- Claim C3 (counterexample): the claim maps the trailing-plus input
`"100+"` (at total 100) to `(100, 100)`; the shared parser instead
raises the unrecognized-format error, and the legacy 0-based crawler
parser returns `(99, 100)`, which differs from `(100, 100)`. -/
theorem C3_range_counterexample :
    parse_chapter_range "100+" 100 =
      Except.error "无法识别的范围格式。请使用 '1-10', '5:', ':20', 或 '8' 等格式。" ∧
    crawler_parse_chapter_range "100+" 100 = some (99, 100) ∧
    some (99, 100) ≠ some ((100 : Int), (100 : Int)) := by
  refine ⟨rfl, rfl, ?_⟩
  decide

/-- Claim C3 (amended): at total chapter count 100 the shared parser
maps `""` to `(1,100)`, `"50:"` to `(50,100)`, `":100"` to `(1,100)`,
raises the out-of-range error for `"150"`, the start-greater-than-end
error for `"10-5"`, and clamps `"0-1000"` to `(1,100)`; but the
trailing-plus input `"100+"` raises the unrecognized-format error in
this parser — the `+` form is handled only by the legacy 0-based
crawler parser, which maps it to `(99, 100)` (a slice selecting exactly
chapter 100). -/
theorem C3_range_amended :
    parse_chapter_range "" 100 = Except.ok (1, 100) ∧
    parse_chapter_range "50:" 100 = Except.ok (50, 100) ∧
    parse_chapter_range ":100" 100 = Except.ok (1, 100) ∧
    parse_chapter_range "150" 100 = Except.error "单个章节号超出范围。" ∧
    parse_chapter_range "10-5" 100 = Except.error "开始章节不能大于结束章节。" ∧
    parse_chapter_range "0-1000" 100 = Except.ok (1, 100) ∧
    parse_chapter_range "100+" 100 =
      Except.error "无法识别的范围格式。请使用 '1-10', '5:', ':20', 或 '8' 等格式。" ∧
    crawler_parse_chapter_range "100+" 100 = some (99, 100) :=
  ⟨rfl, rfl, rfl, rfl, rfl, rfl, rfl, rfl⟩

/-- Claim C7: the supplementary public-suffix check of
`is_sensitive_site` is dead code — `tldextract` returns suffixes
without a leading dot, so the membership test against
`['.gov', '.mil', '.edu']` never succeeds for any URL; in particular
`http://abc.edu/xyz` (suffix `edu`, matching no domain-suffix,
blocked-host or keyword rule) is NOT flagged sensitive, contradicting
the claim. -/
theorem C7_tld_supplementary_check_dead :
    (∀ url : String, tldextract_suffix url ∉ [".gov", ".mil", ".edu"]) ∧
    tldextract_suffix "http://abc.edu/xyz" = "edu" ∧
    is_sensitive_site "http://abc.edu/xyz" = (false, "") := by
  refine ⟨?_, by decide, by decide⟩
  intro url
  rcases tldextract_suffix_cases url with h | h | h
  · rw [h]; decide
  · generalize hs : tldextract_suffix url = s at h ⊢
    fin_cases h <;> decide
  · generalize hs : tldextract_suffix url = s at h ⊢
    fin_cases h <;> decide

/-- Claim C8: the claim states every `-t` flag value is clamped into
`[1, 10]` before the crawl is dispatched.  The code clamps only the
interactive prompt answer; the flag value is passed through unclamped,
so `-t 50` with `-u` dispatches 50 workers (and in interactive mode a
blank answer keeps the unclamped flag value as well), while the
interactive clamp itself does exist. -/
theorem C8_threads_unclamped :
    resolve_max_workers (some "http://example.com/novel/") 50 "" = 50 ∧
    ¬ (1 ≤ resolve_max_workers (some "http://example.com/novel/") 50 "" ∧
        resolve_max_workers (some "http://example.com/novel/") 50 "" ≤ 10) ∧
    resolve_max_workers none 50 "" = 50 ∧
    resolve_max_workers (some "http://example.com/novel/") 0 "" = 0 ∧
    resolve_max_workers none 3 "99" = 10 := by
  decide

/-- Claim C4 (counterexample): for the four on-disk chapters
`第1章 开篇`, `第3章 风起`, `番外 外传一`, `5、番外篇二`, the claim
expects the merged headings `第4章 外传一` and then `第5章 番外篇二`.
The code produces neither: `5、番外篇二` sorts before `番外 外传一`
(sort key 5 against 90000 + hash), both are tagged as 番外 side
stories, and renumbering keeps their full raw headings, yielding
`第4章 5、番外篇二` then `第5章 番外 外传一` (shown here for the
concrete hash residue 0; the headings are hash-independent, see the
amended theorem). -/
theorem C4_merge_counterexample :
    (merge_processed_contents (fun _ => 0) mergerExampleFiles).map headLineOf =
      ["第1章 开篇", "第3章 风起", "第4章 5、番外篇二", "第5章 番外 外传一"] ∧
    "第4章 外传一" ∉ (merge_processed_contents (fun _ => 0) mergerExampleFiles).map headLineOf ∧
    "第5章 番外篇二" ∉ (merge_processed_contents (fun _ => 0) mergerExampleFiles).map headLineOf := by
  decide

/-- Claim C4 (amended): non-canonical chapters are renumbered
consecutively from one above the maximum canonical number, walked in
filename-sort order, and placed after all canonical chapters; for the
example files the filename-sort order puts `5、番外篇二` (key 5) before
`番外 外传一` (key 90000 + hash mod 1000), and the 番外-tagged headings
keep their full raw text, so — for every hash function — the merged
contents are `第1章 开篇`, `第3章 风起`, then `第4章 5、番外篇二` and
`第5章 番外 外传一`, in that order. -/
theorem C4_merge_amended (h : String → Nat) :
    merge_processed_contents h mergerExampleFiles =
      ["第1章 开篇\n\n\n    正文甲",
       "第3章 风起\n\n\n    正文乙",
       "第4章 5、番外篇二\n\n\n    正文丁",
       "第5章 番外 外传一\n\n\n    正文丙"] := by
  have hsort := sortByKey_pattern (fun f => extract_chapter_number h f.1)
      ("第1章 开篇.md", "# 第1章 开篇\n\n正文甲")
      ("第3章 风起.md", "# 第3章 风起\n\n正文乙")
      ("番外 外传一.md", "# 番外 外传一\n\n正文丙")
      ("5、番外篇二.md", "# 5、番外篇二\n\n正文丁")
      (by show (1 : Nat) ≤ 3; decide)
      (by show (1 : Nat) ≤ 90000 + h "番外 外传一.md" % 1000; omega)
      (by show (3 : Nat) ≤ 90000 + h "番外 外传一.md" % 1000; omega)
      (by show (1 : Nat) ≤ 5; decide)
      (by show (3 : Nat) ≤ 5; decide)
      (by show ¬ (90000 + h "番外 外传一.md" % 1000 ≤ 5); omega)
  simp only [merge_processed_contents, mergerExampleFiles]
  rw [hsort]
  rfl

/-- Claim C5: `process_and_save_chapter` is idempotent on persisted
state — when the destination file exists under the held lock the call
returns `skipped`, fetches nothing and leaves the files unchanged; and
running the pipeline twice over the same chapter and directory leaves
exactly the state of running it once. -/
theorem C5_processor_idempotent (fetch : String → String) (clean : String → String → String)
    (ch : ChapterInfo) (dir : String) (st : ProcState) :
    ((lookupFile st.files (chapterPath dir ch.title)).isSome = true →
      procResult fetch clean ch dir st = ProcResult.skipped ∧
      procFetched fetch clean ch dir st = [] ∧
      (procState fetch clean ch dir st).files = st.files) ∧
    procState fetch clean ch dir (procState fetch clean ch dir st) =
      procState fetch clean ch dir st := by
  constructor
  · intro hex
    obtain ⟨b, hb⟩ := Option.isSome_iff_exists.mp hex
    exact ⟨procResult_of_some hb, procFetched_of_some hb, procState_files_of_some hb⟩
  · apply ProcState.ext
    · cases hl : lookupFile st.files (chapterPath dir ch.title) with
      | some b =>
        have h1 : (procState fetch clean ch dir st).files = st.files := procState_files_of_some hl
        have h2 : lookupFile (procState fetch clean ch dir st).files (chapterPath dir ch.title) =
            some b := by rw [h1]; exact hl
        exact procState_files_of_some h2
      | none =>
        by_cases hf : fetch ch.url = ""
        · have h1 : (procState fetch clean ch dir st).files = st.files :=
            procState_files_of_fetchEmpty hl hf
          have h2 : lookupFile (procState fetch clean ch dir st).files (chapterPath dir ch.title) =
              none := by rw [h1]; exact hl
          exact procState_files_of_fetchEmpty h2 hf
        · by_cases hc : clean (fetch ch.url) ch.url = ""
          · have h1 : (procState fetch clean ch dir st).files = st.files :=
              procState_files_of_cleanEmpty hl hf hc
            have h2 : lookupFile (procState fetch clean ch dir st).files (chapterPath dir ch.title) =
                none := by rw [h1]; exact hl
            exact procState_files_of_cleanEmpty h2 hf hc
          · have h1 := procState_files_of_success hl hf hc
            have h2 : lookupFile (procState fetch clean ch dir st).files (chapterPath dir ch.title) =
                some ("# " ++ ch.title ++ "\n\n" ++ clean (fetch ch.url) ch.url) := by
              rw [h1]; exact lookupFile_pyDictUpdate _ _ _
            exact procState_files_of_some h2
    · rw [procState_locks_eq fetch clean ch dir (procState fetch clean ch dir st),
          procState_locks_eq fetch clean ch dir st]
      exact setDiscard_eq_of_not_mem (not_mem_setDiscard _ _)
    · rw [procState_registry_eq fetch clean ch dir (procState fetch clean ch dir st),
          procState_registry_eq fetch clean ch dir st]
      exact setDiscard_eq_of_not_mem (not_mem_setDiscard _ _)

/-- Witness for `C5_processor_idempotent`: a directory that already
holds `d/t.md` makes the call skip without fetching or writing. -/
theorem C5_processor_idempotent_witness :
    (lookupFile (ProcState.mk [("d/t.md", "x")] [] []).files
        (chapterPath "d" (ChapterInfo.mk "t" "u").title)).isSome = true ∧
    (procResult fetchConst cleanConst ⟨"t", "u"⟩ "d" ⟨[("d/t.md", "x")], [], []⟩ =
        ProcResult.skipped ∧
      procFetched fetchConst cleanConst ⟨"t", "u"⟩ "d" ⟨[("d/t.md", "x")], [], []⟩ = [] ∧
      (procState fetchConst cleanConst ⟨"t", "u"⟩ "d" ⟨[("d/t.md", "x")], [], []⟩).files =
        [("d/t.md", "x")]) :=
  ⟨by decide,
   (C5_processor_idempotent fetchConst cleanConst ⟨"t", "u"⟩ "d"
      ⟨[("d/t.md", "x")], [], []⟩).1 (by decide)⟩

/-- Claim C6: every invocation of `process_and_save_chapter` registers
the chapter's lock path before acquisition, and on every outcome the
`finally` step removes it again and deletes the sidecar sentinel (net
effect: the lock path is discarded from both the registry and the
on-disk sentinels); the exit/signal sweep `cleanup_lock_files` empties
the registry and removes every sentinel file it tracks. -/
theorem C6_lock_registry_invariant (fetch : String → String) (clean : String → String → String)
    (ch : ChapterInfo) (dir : String) (st : ProcState) :
    lockPath dir ch.title ∈ (procAfterRegister ch dir st).registry ∧
    (procState fetch clean ch dir st).registry = setDiscard st.registry (lockPath dir ch.title) ∧
    (procState fetch clean ch dir st).locks = setDiscard st.locks (lockPath dir ch.title) ∧
    lockPath dir ch.title ∉ (procState fetch clean ch dir st).registry ∧
    lockPath dir ch.title ∉ (procState fetch clean ch dir st).locks ∧
    (cleanup_lock_files st).registry = [] ∧
    ∀ p ∈ st.registry, p ∉ (cleanup_lock_files st).locks := by
  refine ⟨mem_setAdd_self _ _, procState_registry_eq fetch clean ch dir st,
      procState_locks_eq fetch clean ch dir st, ?_, ?_, rfl, ?_⟩
  · rw [procState_registry_eq]
    exact not_mem_setDiscard _ _
  · rw [procState_locks_eq]
    exact not_mem_setDiscard _ _
  · intro p hp hmem
    simp only [cleanup_lock_files, List.mem_filter, decide_eq_true_eq] at hmem
    exact hmem.2 hp

/-- Witness for `C6_lock_registry_invariant`: a registry tracking
`x.lock` has it swept from disk and cleared by `cleanup_lock_files`. -/
theorem C6_lock_registry_invariant_witness :
    "x.lock" ∈ (ProcState.mk [] ["x.lock"] ["x.lock"]).registry ∧
    "x.lock" ∉ (cleanup_lock_files ⟨[], ["x.lock"], ["x.lock"]⟩).locks :=
  ⟨by decide,
   (C6_lock_registry_invariant fetchConst cleanConst ⟨"t", "u"⟩ "d"
      ⟨[], ["x.lock"], ["x.lock"]⟩).2.2.2.2.2.2 "x.lock" (by decide)⟩

/-- Claim C9: two distinct titles with equal sanitized forms map to the
same destination file — after the first chapter is processed
successfully, processing the second returns `skipped`, fetches nothing
and writes nothing, so the second chapter's content is never
persisted. -/
theorem C9_sanitize_collision_skipped (fetch : String → String) (clean : String → String → String)
    (t1 t2 u1 u2 dir : String) (st : ProcState)
    (hsan : sanitize_filename t1 = sanitize_filename t2)
    (hfirst : procResult fetch clean ⟨t1, u1⟩ dir st = ProcResult.success) :
    procResult fetch clean ⟨t2, u2⟩ dir (procState fetch clean ⟨t1, u1⟩ dir st) =
      ProcResult.skipped ∧
    procFetched fetch clean ⟨t2, u2⟩ dir (procState fetch clean ⟨t1, u1⟩ dir st) = [] ∧
    (procState fetch clean ⟨t2, u2⟩ dir (procState fetch clean ⟨t1, u1⟩ dir st)).files =
      (procState fetch clean ⟨t1, u1⟩ dir st).files := by
  obtain ⟨hl, hf, hc⟩ := procResult_success_inv hfirst
  have hfiles := procState_files_of_success hl hf hc
  have hpath : chapterPath dir (ChapterInfo.mk t2 u2).title =
      chapterPath dir (ChapterInfo.mk t1 u1).title := by
    show chapterPath dir t2 = chapterPath dir t1
    unfold chapterPath
    rw [hsan]
  have h2 : lookupFile (procState fetch clean ⟨t1, u1⟩ dir st).files
      (chapterPath dir (ChapterInfo.mk t2 u2).title) =
      some ("# " ++ t1 ++ "\n\n" ++ clean (fetch u1) u1) := by
    rw [hpath, hfiles]
    exact lookupFile_pyDictUpdate _ _ _
  exact ⟨procResult_of_some h2, procFetched_of_some h2, procState_files_of_some h2⟩

/-- Witness for `C9_sanitize_collision_skipped`: the titles `a?` and
`a` sanitize to the same name; the second chapter is skipped after the
first succeeds. -/
theorem C9_sanitize_collision_skipped_witness :
    sanitize_filename "a?" = sanitize_filename "a" ∧
    procResult fetchConst cleanConst ⟨"a?", "u1"⟩ "d" ⟨[], [], []⟩ = ProcResult.success ∧
    procResult fetchConst cleanConst ⟨"a", "u2"⟩ "d"
      (procState fetchConst cleanConst ⟨"a?", "u1"⟩ "d" ⟨[], [], []⟩) = ProcResult.skipped :=
  ⟨by decide, by decide,
   (C9_sanitize_collision_skipped fetchConst cleanConst "a?" "a" "u1" "u2" "d" ⟨[], [], []⟩
      (by decide) (by decide)).1⟩

/-- Claim C10: `clean_and_validate_url` deletes every character outside
Python's `string.printable` before validation — every successfully
returned URL consists solely of such characters, and a URL with a
Chinese path segment comes back silently truncated to a different URL
rather than an error. -/
theorem C10_url_printable_filter :
    (∀ url r : String, clean_and_validate_url url = Except.ok r →
        r.data.all inStringPrintable = true) ∧
    clean_and_validate_url "https://example.com/第一章" = Except.ok "https://example.com/" ∧
    ("https://example.com/第一章" : String) ≠ "https://example.com/" := by
  have hclean : ∀ url : String, (cleanedUrl url).data.all inStringPrintable = true := by
    intro url
    apply List.all_eq_true.mpr
    intro c hc
    have h1 : c ∈ ((pyStripChars url.data).filter
        (fun x => !isAbnormalChar x)).filter inStringPrintable := mem_pyStripChars hc
    exact List.of_mem_filter h1
  have hval : ∀ u r : String, validateUrl u = Except.ok r → r = u := by
    intro u r h
    unfold validateUrl at h
    split_ifs at h
    injection h with h2
    exact h2.symm
  have hgen : ∀ url r : String, clean_and_validate_url url = Except.ok r →
      r.data.all inStringPrintable = true := by
    intro url r h
    unfold clean_and_validate_url at h
    split_ifs at h
    · rw [hval _ _ h]
      exact hclean url
    · rw [hval _ _ h]
      show (("https://" : String) ++ cleanedUrl url).data.all inStringPrintable = true
      have happ : (("https://" : String) ++ cleanedUrl url).data =
          ("https://" : String).data ++ (cleanedUrl url).data := rfl
      rw [happ, List.all_append, hclean url]
      decide
  refine ⟨hgen, by rfl, by decide⟩

/-- Witness for `C10_url_printable_filter`, applying the general part
at the truncated Chinese-path URL. -/
theorem C10_url_printable_filter_witness :
    ("https://example.com/" : String).data.all inStringPrintable = true :=
  C10_url_printable_filter.1 "https://example.com/第一章" "https://example.com/"
    C10_url_printable_filter.2.1

end Crawler
